import Mathlib

/-!
Shallow embedding of `petabvis/window_functionality.py` (PEtab interactive
visualization, file-management / data-exchange layer).

Modelling conventions:
* A pandas `DataFrame` is a column-major table: an ordered list of
  (column name, cell list) pairs, cells rendered as strings.
* The external PEtab loaders (`petab.get_measurement_df`,
  `get_condition_df`, `get_visualization_df`, `get_observable_df`,
  `petab.core.get_simulation_df`) all read a tabular file from a path; they
  are modelled by a single abstract file system `Env.files : String →
  Option DataFrame` (`none` = the loader raises).  `petab.load_yaml(p)["problems"]`
  is modelled by `Env.yamls : String → Option (List YamlDict)`
  (`none` = malformed YAML or missing `problems` key, which raises).
* The Qt main window's mutable attributes (`yaml_dict`, `exp_data`,
  `condition_df`, `visualization_df`, `simulation_df`, the warning label,
  the popup table window, the tree model) form the `Window` state record.
  Outbound signals are counted (`plotCount`) or flagged
  (`correlationVisible`).
* Python exceptions propagate while leaving already-performed attribute
  mutations in place, so fallible handlers return
  `Except (PyError × Window) Window`: the error carries the window as
  mutated up to the raise point.
* The `QFileDialog` / `QSettings` interaction (choosing `file_name`,
  persisting `last_dir`) is elided: the chosen `file_name` is a parameter,
  and the empty string models "dialog cancelled" exactly as in the source
  (`if file_name != ""`).
-/

namespace Petabvis

/-- Constant from `petab.C` (`ptc.MEASUREMENT_FILES`). -/
def MEASUREMENT_FILES : String := "measurement_files"

/-- Constant from `petab.C` (`ptc.CONDITION_FILES`). -/
def CONDITION_FILES : String := "condition_files"

/-- Constant from `petab.C` (`ptc.VISUALIZATION_FILES`). -/
def VISUALIZATION_FILES : String := "visualization_files"

/-- Constant from `petab.C` (`ptc.OBSERVABLE_FILES`). -/
def OBSERVABLE_FILES : String := "observable_files"

/-- Constant from `petab.C` (`ptc.REPLICATE_ID`). -/
def REPLICATE_ID : String := "replicateId"

/-- A loaded table (pandas dataframe), column-major: ordered named columns,
each with its ordered list of stringified cells. -/
structure DataFrame where
  cols : List (String × List String)
deriving DecidableEq

/-- `df.columns` of pandas: the ordered column names. -/
def colNames (df : DataFrame) : List String := df.cols.map Prod.fst

/-- Number of rows of the table (length of the first column, 0 if empty). -/
def nRows (df : DataFrame) : Nat := ((df.cols.head?).map (fun c => c.2.length)).getD 0

/-- The default cell value used when a missing column is synthesized. -/
def defaultCell : String := ""

/-- `df.drop(name, axis=1)`: remove the column with the given name. -/
def dropCol (df : DataFrame) (name : String) : DataFrame :=
  ⟨df.cols.filter (fun c => !decide (c.1 = name))⟩

/-- The first problem object of a PEtab YAML manifest:
a mapping from category keys to lists of filenames. -/
abbrev YamlDict := List (String × List String)

/-- Python dict lookup `yd[key]` (as an `Option`; `none` = `KeyError`). -/
def lookupYaml : YamlDict → String → Option (List String)
  | [], _ => none
  | (k, v) :: rest, key => if k = key then some v else lookupYaml rest key

/-- Python `key in yd`. -/
def containsKey (yd : YamlDict) (key : String) : Bool := (lookupYaml yd key).isSome

/-- The abstract external world: YAML manifests (already projected to their
`problems` list) and loadable tabular files, both indexed by path. -/
structure Env where
  yamls : String → Option (List YamlDict)
  files : String → Option DataFrame

/-- A Python exception escaping a handler. -/
inductive PyError where
  | parseError (path : String)
  | keyError (key : String)
  | indexError
  | typeError
  | fileError (path : String)
deriving DecidableEq

/-- The Qt tree model: branches (category name) with leaves
(filename, the dataframe stored on the item under `Qt.UserRole + 1`). -/
abbrev TreeModel := List (String × List (String × Option DataFrame))

/-- Mutable state of the main window relevant to this module. -/
structure Window where
  yaml_dict : Option YamlDict
  exp_data : Option DataFrame
  condition_df : Option DataFrame
  visualization_df : Option DataFrame
  simulation_df : Option DataFrame
  warn_msg : String
  plotCount : Nat
  correlationVisible : Bool
  table_window : Option DataFrame
  tree : Option TreeModel
deriving DecidableEq

/-- A fresh main window before any file was opened. -/
def initialWindow : Window :=
  { yaml_dict := none, exp_data := none, condition_df := none,
    visualization_df := none, simulation_df := none, warn_msg := "",
    plotCount := 0, correlationVisible := false, table_window := none,
    tree := none }

/-- Modelled from the spec: `window.add_plots()` lives in the main-window
module, not under `src/`; per the spec it is the outbound
`refreshPlots(ActiveSelection)` signal to the plotting subsystem, invoked
after every successful openManifest, activate, or attachSimulation.  The
model counts its invocations. -/
def add_plots (w : Window) : Window := { w with plotCount := w.plotCount + 1 }

/-- Modelled from the spec: `window.add_warning(msg)` lives in the
main-window module, not under `src/`; per the spec it surfaces a message in
the persistent warning area of the UI (`warn_msg`). -/
def add_warning (w : Window) (msg : String) : Window := { w with warn_msg := msg }

/-- `pop_up_table_view(window, df)`: wraps `df` in a `TableWidget` and
assigns it to the single `window.table_window` attribute, then shows it.
The read-only view is identified with the dataframe it displays. -/
def pop_up_table_view (w : Window) (df : DataFrame) : Window :=
  { w with table_window := some df }

/-- `os.path.dirname`: the path up to (excluding) the last `/`. -/
def dirname (p : String) : String :=
  match p.data.reverse.dropWhile (fun c => !decide (c = '/')) with
  | [] => ""
  | _ :: tail => String.mk tail.reverse

/-- The four category keys whose leaves `table_tree_view`'s loop loads from
disk (lines 133–140). -/
def isLoadCategory (key : String) : Prop :=
  key = MEASUREMENT_FILES ∨ key = VISUALIZATION_FILES ∨
    key = CONDITION_FILES ∨ key = OBSERVABLE_FILES

instance (key : String) : Decidable (isLoadCategory key) := by
  unfold isLoadCategory
  exact inferInstance

/-- One leaf of `table_tree_view`'s loop body: `df = None`, then one of the
four category tests loads the file (all four external loaders are modelled
by `env.files`); the result is the data stored on the item plus the list of
load attempts performed (for stating eager-vs-lazy loading). -/
def leafLoad (env : Env) (folder key filename : String) :
    Except PyError (Option DataFrame × List String) :=
  if isLoadCategory key then
    let path := folder ++ "/" ++ filename
    match env.files path with
    | none => .error (.fileError path)
    | some df => .ok (some df, [path])
  else .ok (none, [])

/-- The inner loop of `table_tree_view`: build the leaves of one branch. -/
def buildLeaves (env : Env) (folder key : String) :
    List String → Except PyError (List (String × Option DataFrame) × List String)
  | [] => .ok ([], [])
  | f :: fs =>
    match leafLoad env folder key f with
    | .error e => .error e
    | .ok (df, tr₁) =>
      match buildLeaves env folder key fs with
      | .error e => .error e
      | .ok (ls, tr₂) => .ok ((f, df) :: ls, tr₁ ++ tr₂)

/-- The outer loop of `table_tree_view`: one branch per key of `yaml_dict`. -/
def buildBranches (env : Env) (folder : String) :
    YamlDict → Except PyError (TreeModel × List String)
  | [] => .ok ([], [])
  | (key, files) :: rest =>
    match buildLeaves env folder key files with
    | .error e => .error e
    | .ok (ls, tr₁) =>
      match buildBranches env folder rest with
      | .error e => .error e
      | .ok (bs, tr₂) => .ok ((key, ls) :: bs, tr₁ ++ tr₂)

/-- `table_tree_view(window, folder_path)`: builds the tree model from
`window.yaml_dict`, loading each referenced measurement / visualization /
condition / observable file from `folder_path + "/" + filename`, then
appends a `simulation_files` branch when `window.simulation_df` is not
`None`.  Returns the tree model together with the list of file loads it
performed. -/
def table_tree_view (env : Env) (yaml_dict : YamlDict)
    (simulation_df : Option DataFrame) (folder_path : String) :
    Except PyError (TreeModel × List String) :=
  match buildBranches env folder_path yaml_dict with
  | .error e => .error e
  | .ok (bs, tr) =>
    match simulation_df with
    | some sim => .ok (bs ++ [("simulation_files", [("simulation_file", some sim)])], tr)
    | none => .ok (bs, tr)

/-- A clicked tree item as the handlers see it: display name, parent's
display name (`none` for the invisible root), and the dataframe stored
under `Qt.UserRole + 1` (`none` on branch nodes). -/
structure ClickedNode where
  parentName : Option String
  name : String
  data : Option DataFrame
deriving DecidableEq

/-- `exchange_dataframe_on_click(index, model, window)`: installs the
clicked item's dataframe into the slot matching the parent branch
(measurement / visualization / condition), then unconditionally replots. -/
def exchange_dataframe_on_click (node : ClickedNode) (w : Window) : Window :=
  let w₁ := if node.parentName = some MEASUREMENT_FILES then
    { w with exp_data := node.data } else w
  let w₂ := if node.parentName = some VISUALIZATION_FILES then
    { w₁ with visualization_df := node.data } else w₁
  let w₃ := if node.parentName = some CONDITION_FILES then
    { w₂ with condition_df := node.data } else w₂
  add_plots w₃

/-- `display_table_on_doubleclick(index, model, window)`: if the clicked
item carries a dataframe, open it in a popup table view; otherwise do
nothing. -/
def display_table_on_doubleclick (node : ClickedNode) (w : Window) : Window :=
  match node.data with
  | some df => pop_up_table_view w df
  | none => w

/-- Modelled from the spec: the column-synthesis half of simulation
reconciliation.  The source delegates it to
`petab.visualize.helper_functions.check_ex_exp_columns` (an external
library function, not under `src/`, called at line 274 with the simulation
table; the source comment reads "check columns, and add non-mandatory
default columns").  Per the spec's reconciliation rule, every column
present in the measurement table but missing from the simulation table is
synthesized with default values. -/
def check_ex_exp_columns (sim exp : DataFrame) : DataFrame :=
  ⟨sim.cols ++
    ((exp.cols.filter (fun c => !decide (c.1 ∈ colNames sim))).map
      (fun c => (c.1, List.replicate (nRows sim) defaultCell)))⟩

/-- Lines 272–279 of `show_simulation_dialog`: run the column check /
default-column synthesis, then delete the `replicateId` column when it is
present in the simulation table but absent from the measurement table
(`exp`), because it causes problems when splitting the replicates. -/
def reconcileSimulation (sim exp : DataFrame) : DataFrame :=
  let sim₁ := check_ex_exp_columns sim exp
  if REPLICATE_ID ∉ colNames exp ∧ REPLICATE_ID ∈ colNames sim₁ then
    dropCol sim₁ REPLICATE_ID
  else sim₁

/-- `show_yaml_dialog(self, window)` with the selected `file_name` made a
parameter (the `QFileDialog` / `QSettings` steps are elided; `file_name =
""` is the cancelled dialog).  Follows the source's statement order,
including the mutations already applied when an exception is raised. -/
def show_yaml_dialog (env : Env) (file_name : String) (w : Window) :
    Except (PyError × Window) Window :=
  if file_name = "" then .ok w else
  let last_dir := dirname file_name
  let w := { w with warn_msg := "" }
  match env.yamls file_name with
  | none => .error (.parseError file_name, w)
  | some problems =>
    match problems with
    | [] => .error (.indexError, w)
    | yd :: _ =>
      let w := { w with yaml_dict := some yd }
      match lookupYaml yd MEASUREMENT_FILES with
      | none => .error (.keyError MEASUREMENT_FILES, w)
      | some mfiles =>
        match mfiles with
        | [] => .error (.indexError, w)
        | mf :: _ =>
          match env.files (last_dir ++ "/" ++ mf) with
          | none => .error (.fileError (last_dir ++ "/" ++ mf), w)
          | some mdf =>
            let w := { w with exp_data := some mdf }
            match lookupYaml yd CONDITION_FILES with
            | none => .error (.keyError CONDITION_FILES, w)
            | some cfiles =>
              match cfiles with
              | [] => .error (.indexError, w)
              | cf :: _ =>
                match env.files (last_dir ++ "/" ++ cf) with
                | none => .error (.fileError (last_dir ++ "/" ++ cf), w)
                | some cdf =>
                  let w := { w with condition_df := some cdf }
                  let w := { w with simulation_df := none }
                  match lookupYaml yd VISUALIZATION_FILES with
                  | some vfiles =>
                    match vfiles with
                    | [] => .error (.indexError, w)
                    | vf :: _ =>
                      match env.files (last_dir ++ "/" ++ vf) with
                      | none => .error (.fileError (last_dir ++ "/" ++ vf), w)
                      | some vdf =>
                        let w := { w with visualization_df := some vdf }
                        let w := add_plots w
                        match table_tree_view env yd w.simulation_df last_dir with
                        | .error e => .error (e, w)
                        | .ok (t, _) => .ok { w with tree := some t }
                  | none =>
                    let w := { w with visualization_df := none }
                    let w := add_warning w
                      "The YAML file contains no visualization file (default plotted)"
                    let w := add_plots w
                    match table_tree_view env yd w.simulation_df last_dir with
                    | .error e => .error (e, w)
                    | .ok (t, _) => .ok { w with tree := some t }

/-- `show_simulation_dialog(self, window)` with the selected `file_name`
made a parameter.  When no measurement table is active, only a warning is
surfaced; otherwise the simulation table is loaded, reconciled, installed,
the plots refreshed, the correlation view made visible, and the tree
rebuilt against `os.path.dirname(file_name)` — the directory of the chosen
simulation file. -/
def show_simulation_dialog (env : Env) (file_name : String) (w : Window) :
    Except (PyError × Window) Window :=
  if file_name = "" then .ok w else
  match w.exp_data with
  | none => .ok (add_warning w "Please open a YAML file first.")
  | some exp =>
    let w := { w with warn_msg := "" }
    match env.files file_name with
    | none => .error (.fileError file_name, w)
    | some sim₀ =>
      let simData := reconcileSimulation sim₀ exp
      let w := { w with simulation_df := some simData }
      let w := add_plots w
      let w := { w with correlationVisible := true }
      match w.yaml_dict with
      | none => .error (.typeError, w)
      | some yd =>
        match table_tree_view env yd w.simulation_df (dirname file_name) with
        | .error e => .error (e, w)
        | .ok (t, _) => .ok { w with tree := some t }

/-! ### Concrete instances used by witnesses and counterexamples -/

/-- A small measurement table with columns A, B, C. -/
def dfABC : DataFrame := ⟨[("A", ["1"]), ("B", ["2"]), ("C", ["3"])]⟩

/-- A small simulation table with columns A, B, replicateId. -/
def dfABrep : DataFrame := ⟨[("A", ["1"]), ("B", ["2"]), ("replicateId", ["0"])]⟩

/-- A measurement table. -/
def dfMeas : DataFrame := ⟨[("obs", ["o1"]), ("time", ["0"])]⟩

/-- A condition table. -/
def dfCond : DataFrame := ⟨[("conditionId", ["c1"])]⟩

/-- A second table, distinct from `dfMeas`. -/
def dfOther : DataFrame := ⟨[("obs", ["o2"]), ("time", ["1"])]⟩

/-- Extract the window from a handler result (the window as mutated up to
the raise point, when the handler raised). -/
def okWin (r : Except (PyError × Window) Window) : Window :=
  match r with
  | .ok w => w
  | .error p => p.2

/-- The exception a handler raised, if any. -/
def errOf (r : Except (PyError × Window) Window) : Option PyError :=
  match r with
  | .ok _ => none
  | .error p => some p.1

/-- Did the handler return without raising? -/
def isOkE (r : Except (PyError × Window) Window) : Bool :=
  match r with
  | .ok _ => true
  | .error _ => false

/-- Did the tree construction succeed? -/
def isOkT (r : Except PyError (TreeModel × List String)) : Bool :=
  match r with
  | .ok _ => true
  | .error _ => false

/-- The paths that `table_tree_view` resolves and loads while the tree is
being built: every filename listed under one of the four loaded categories,
joined to `folder`. -/
def eagerLoadPaths (folder : String) : YamlDict → List String
  | [] => []
  | (key, files) :: rest =>
    (if isLoadCategory key then files.map (fun f => folder ++ "/" ++ f) else []) ++
      eagerLoadPaths folder rest

/-- Environment holding only the standalone simulation file used by C1's
witness. -/
def envSim : Env :=
  { yamls := fun _ => none,
    files := fun p => if p = "/sim/simulation.tsv" then some dfABrep else none }

/-- Window state with measurement columns A, B, C active and an empty
manifest dictionary. -/
def wSim : Window :=
  { initialWindow with exp_data := some dfABC, yaml_dict := some [] }

/-- Environment for C6's witness: a valid manifest with measurement and
condition files but no visualization category. -/
def envNoViz : Env :=
  { yamls := fun p => if p = "/nv/problem.yaml" then
      some [[(MEASUREMENT_FILES, ["m.tsv"]), (CONDITION_FILES, ["c.tsv"])]] else none,
    files := fun p =>
      if p = "/nv/m.tsv" then some dfMeas
      else if p = "/nv/c.tsv" then some dfCond else none }

/-- Manifest dictionary with a measurement category only (no condition
category), used by C3's counterexample. -/
def ydMeasOnly : YamlDict := [(MEASUREMENT_FILES, ["m.tsv"])]

/-- Environment whose manifest is valid YAML but lacks the condition
category. -/
def envMeasOnly : Env :=
  { yamls := fun p => if p = "/d/p.yaml" then some [ydMeasOnly] else none,
    files := fun p => if p = "/d/m.tsv" then some dfMeas else none }

/-- Manifest dictionary of C5: a measurement and a condition file, both
relative to the manifest's directory. -/
def ydTwo : YamlDict := [(MEASUREMENT_FILES, ["m.tsv"]), (CONDITION_FILES, ["c.tsv"])]

/-- C5 environment: the manifest and its data files live under `/data`;
the standalone simulation file lives under `/results`. -/
def envSplitDirs : Env :=
  { yamls := fun p => if p = "/data/problem.yaml" then some [ydTwo] else none,
    files := fun p =>
      if p = "/data/m.tsv" then some dfMeas
      else if p = "/data/c.tsv" then some dfCond
      else if p = "/results/sim.tsv" then some dfABrep else none }

/-- The window after successfully opening C5's manifest. -/
def wAfterOpen : Window :=
  okWin (show_yaml_dialog envSplitDirs "/data/problem.yaml" initialWindow)

/-! ### Helper lemmas about column reconciliation -/

/-- Columns of the synthesis step: those of the simulation table plus every
measurement column missing from it. -/
lemma mem_colNames_check (c : String) (sim exp : DataFrame) :
    c ∈ colNames (check_ex_exp_columns sim exp) ↔
      c ∈ colNames sim ∨ c ∈ colNames exp := by
  rcases sim with ⟨scols⟩
  rcases exp with ⟨ecols⟩
  simp only [colNames, check_ex_exp_columns, List.map_append, List.mem_append,
    List.map_map, Function.comp]
  constructor
  · rintro (h | h)
    · exact Or.inl h
    · obtain ⟨a, ha, rfl⟩ := List.mem_map.mp h
      exact Or.inr (List.mem_map.mpr ⟨a, (List.mem_filter.mp ha).1, rfl⟩)
  · rintro (h | h)
    · exact Or.inl h
    · by_cases hs : c ∈ List.map Prod.fst scols
      · exact Or.inl hs
      · obtain ⟨a, ha, rfl⟩ := List.mem_map.mp h
        refine Or.inr (List.mem_map.mpr ⟨a, List.mem_filter.mpr ⟨ha, ?_⟩, rfl⟩)
        simp only [Bool.not_eq_true', decide_eq_false_iff_not]
        exact hs

/-- Columns after `drop`: those of the table except the dropped name. -/
lemma mem_colNames_dropCol (c : String) (df : DataFrame) (name : String) :
    c ∈ colNames (dropCol df name) ↔ c ∈ colNames df ∧ c ≠ name := by
  rcases df with ⟨cols⟩
  simp only [colNames, dropCol, List.mem_map, List.mem_filter,
    Bool.not_eq_true', decide_eq_false_iff_not]
  constructor
  · rintro ⟨a, ⟨ha, hne⟩, rfl⟩
    exact ⟨⟨a, ha, rfl⟩, hne⟩
  · rintro ⟨⟨a, ha, rfl⟩, hne⟩
    exact ⟨a, ⟨ha, hne⟩, rfl⟩

/-- Column-level characterization of lines 272–279: a column survives
reconciliation iff it came from the simulation or the measurement table and
it is not a `replicateId` that the measurement table lacks. -/
lemma mem_colNames_reconcile (c : String) (sim exp : DataFrame) :
    c ∈ colNames (reconcileSimulation sim exp) ↔
      (c ∈ colNames sim ∨ c ∈ colNames exp) ∧
        ¬(c = REPLICATE_ID ∧ REPLICATE_ID ∉ colNames exp) := by
  unfold reconcileSimulation
  by_cases hcond : REPLICATE_ID ∉ colNames exp ∧
      REPLICATE_ID ∈ colNames (check_ex_exp_columns sim exp)
  · rw [if_pos hcond, mem_colNames_dropCol, mem_colNames_check]
    have hrep := hcond.1
    constructor
    · rintro ⟨h, hne⟩
      exact ⟨h, fun hx => hne hx.1⟩
    · rintro ⟨h, hne⟩
      exact ⟨h, fun hx => hne ⟨hx, hrep⟩⟩
  · rw [if_neg hcond, mem_colNames_check]
    constructor
    · intro h
      refine ⟨h, ?_⟩
      rintro ⟨rfl, hrep⟩
      exact hcond ⟨hrep, (mem_colNames_check REPLICATE_ID sim exp).mpr h⟩
    · exact fun h => h.1

/-! ### C1: attachSimulation column reconciliation -/

/-- C1: whenever `show_simulation_dialog` runs with an active measurement
table and returns normally, the simulation table it installed has been
reconciled against the measurement table's column set: every measurement
column missing from the loaded simulation table has been synthesized, a
`replicateId` column absent from the measurement table has been dropped,
and no other columns exist (each column comes from the simulation file or
the measurement table). -/
theorem attach_simulation_reconciles (env : Env) (file_name : String)
    (w w' : Window) (exp sim₀ : DataFrame)
    (hfn : file_name ≠ "")
    (hexp : w.exp_data = some exp)
    (hsim : env.files file_name = some sim₀)
    (hok : show_simulation_dialog env file_name w = .ok w') :
    ∃ s, w'.simulation_df = some s ∧
      (∀ c, c ∈ colNames exp → c ∈ colNames s) ∧
      (REPLICATE_ID ∉ colNames exp → REPLICATE_ID ∉ colNames s) ∧
      (∀ c, c ∈ colNames s ↔
        (c ∈ colNames sim₀ ∨ c ∈ colNames exp) ∧
          ¬(c = REPLICATE_ID ∧ REPLICATE_ID ∉ colNames exp)) := by
  have hsd : w'.simulation_df = some (reconcileSimulation sim₀ exp) := by
    unfold show_simulation_dialog at hok
    rw [if_neg hfn] at hok
    split at hok
    · rename_i heq
      rw [hexp] at heq
      exact Option.noConfusion heq
    · rename_i exp' heq
      rw [hexp] at heq
      injection heq with heq
      subst heq
      split at hok
      · rename_i heq₂
        rw [hsim] at heq₂
        exact Option.noConfusion heq₂
      · rename_i sim' heq₂
        rw [hsim] at heq₂
        injection heq₂ with heq₂
        subst heq₂
        dsimp only at hok
        split at hok
        · exact Except.noConfusion hok
        · split at hok
          · exact Except.noConfusion hok
          · injection hok with hok
            subst hok
            rfl
  refine ⟨reconcileSimulation sim₀ exp, hsd, ?_, ?_, ?_⟩
  · intro c hc
    rw [mem_colNames_reconcile]
    refine ⟨Or.inr hc, ?_⟩
    rintro ⟨rfl, hrep⟩
    exact hrep hc
  · intro hrep hmem
    rw [mem_colNames_reconcile] at hmem
    exact hmem.2 ⟨rfl, hrep⟩
  · exact fun c => mem_colNames_reconcile c sim₀ exp

/-- Witness for C1: measurement columns {A,B,C}, simulation columns
{A,B,replicateId}; the installed simulation table has columns {A,B,C}
(C synthesized, replicateId dropped). -/
theorem attach_simulation_reconciles_witness :
    ("/sim/simulation.tsv" ≠ "") ∧
    wSim.exp_data = some dfABC ∧
    envSim.files "/sim/simulation.tsv" = some dfABrep ∧
    (∃ s, (okWin (show_simulation_dialog envSim "/sim/simulation.tsv" wSim)).simulation_df
          = some s ∧
      (∀ c, c ∈ colNames dfABC → c ∈ colNames s) ∧
      (REPLICATE_ID ∉ colNames dfABC → REPLICATE_ID ∉ colNames s) ∧
      (∀ c, c ∈ colNames s ↔
        (c ∈ colNames dfABrep ∨ c ∈ colNames dfABC) ∧
          ¬(c = REPLICATE_ID ∧ REPLICATE_ID ∉ colNames dfABC))) ∧
    ((okWin (show_simulation_dialog envSim "/sim/simulation.tsv" wSim)).simulation_df.map
      colNames = some ["A", "B", "C"]) :=
  ⟨by decide, rfl, rfl,
    attach_simulation_reconciles envSim "/sim/simulation.tsv" wSim
      (okWin (show_simulation_dialog envSim "/sim/simulation.tsv" wSim))
      dfABC dfABrep (by decide) rfl rfl rfl,
    by decide⟩

/-! ### C2: attachSimulation with no active measurement table -/

/-- The first statement of `show_yaml_dialog`'s selected-file branch clears
the warning area (`window.warn_msg.setText("")`), so the handler's result
does not depend on the previous content of `warn_msg`. -/
lemma show_yaml_dialog_warn_irrelevant (env : Env) (fn : String) (w : Window)
    (msg : String) (hfn : fn ≠ "") :
    show_yaml_dialog env fn { w with warn_msg := msg } = show_yaml_dialog env fn w := by
  unfold show_yaml_dialog
  rw [if_neg hfn, if_neg hfn]

/-- C2: an `attachSimulation` issued while no measurement table is active
aborts with the precondition warning: every ActiveSelection slot
(measurement, condition, visualization, simulation) is left unchanged, the
message "Please open a YAML file first." is surfaced in the warning area
instead, and any `openManifest` that would have succeeded from the prior
state still succeeds afterwards. -/
theorem attach_simulation_no_measurement (env : Env) (file_name : String)
    (w : Window) (hfn : file_name ≠ "") (hexp : w.exp_data = none) :
    ∃ w', show_simulation_dialog env file_name w = .ok w' ∧
      w'.exp_data = w.exp_data ∧
      w'.condition_df = w.condition_df ∧
      w'.visualization_df = w.visualization_df ∧
      w'.simulation_df = w.simulation_df ∧
      w'.warn_msg = "Please open a YAML file first." ∧
      (∀ env₂ fn₂ w₂, show_yaml_dialog env₂ fn₂ w = .ok w₂ →
        ∃ w₃, show_yaml_dialog env₂ fn₂ w' = .ok w₃) := by
  refine ⟨add_warning w "Please open a YAML file first.",
    ?_, rfl, rfl, rfl, rfl, rfl, ?_⟩
  · unfold show_simulation_dialog
    rw [if_neg hfn, hexp]
  · intro env₂ fn₂ w₂ h₂
    by_cases hfn₂ : fn₂ = ""
    · subst hfn₂
      refine ⟨add_warning w "Please open a YAML file first.", ?_⟩
      unfold show_yaml_dialog
      rw [if_pos rfl]
    · exact ⟨w₂, Eq.trans
        (show_yaml_dialog_warn_irrelevant env₂ fn₂ w
          "Please open a YAML file first." hfn₂) h₂⟩

/-- Witness for C2 on a fresh window and the C1 environment. -/
theorem attach_simulation_no_measurement_witness :
    ("/sim/simulation.tsv" ≠ "") ∧ initialWindow.exp_data = none ∧
    (∃ w', show_simulation_dialog envSim "/sim/simulation.tsv" initialWindow = .ok w' ∧
      w'.exp_data = initialWindow.exp_data ∧
      w'.condition_df = initialWindow.condition_df ∧
      w'.visualization_df = initialWindow.visualization_df ∧
      w'.simulation_df = initialWindow.simulation_df ∧
      w'.warn_msg = "Please open a YAML file first." ∧
      (∀ env₂ fn₂ w₂, show_yaml_dialog env₂ fn₂ initialWindow = .ok w₂ →
        ∃ w₃, show_yaml_dialog env₂ fn₂ w' = .ok w₃)) :=
  ⟨by decide, rfl,
    attach_simulation_no_measurement envSim "/sim/simulation.tsv" initialWindow
      (by decide) rfl⟩

/-! ### C6: openManifest on a manifest without a visualization category -/

/-- C6: opening a syntactically valid manifest whose first problem object
lacks the visualization category does not fail: the handler returns
normally with the visualization slot set to `None`, the non-fatal warning
"The YAML file contains no visualization file (default plotted)" surfaced,
the previously attached simulation cleared, and exactly one plot refresh
triggered (plotting proceeds with library defaults). -/
theorem open_manifest_without_visualization (env : Env) (fn : String) (w : Window)
    (yd : YamlDict) (ydrest : List YamlDict) (mf cf : String)
    (mrest crest : List String) (mdf cdf : DataFrame) (t : TreeModel)
    (tr : List String)
    (hfn : fn ≠ "")
    (hy : env.yamls fn = some (yd :: ydrest))
    (hm : lookupYaml yd MEASUREMENT_FILES = some (mf :: mrest))
    (hmf : env.files (dirname fn ++ "/" ++ mf) = some mdf)
    (hc : lookupYaml yd CONDITION_FILES = some (cf :: crest))
    (hcf : env.files (dirname fn ++ "/" ++ cf) = some cdf)
    (hv : lookupYaml yd VISUALIZATION_FILES = none)
    (ht : table_tree_view env yd none (dirname fn) = .ok (t, tr)) :
    ∃ w', show_yaml_dialog env fn w = .ok w' ∧
      w'.visualization_df = none ∧
      w'.warn_msg = "The YAML file contains no visualization file (default plotted)" ∧
      w'.simulation_df = none ∧
      w'.plotCount = w.plotCount + 1 := by
  refine ⟨{ yaml_dict := some yd, exp_data := some mdf, condition_df := some cdf,
            visualization_df := none, simulation_df := none,
            warn_msg := "The YAML file contains no visualization file (default plotted)",
            plotCount := w.plotCount + 1, correlationVisible := w.correlationVisible,
            table_window := w.table_window, tree := some t },
    ?_, rfl, rfl, rfl, rfl⟩
  simp only [show_yaml_dialog, if_neg hfn, hy, hm, hmf, hc, hcf, hv, ht,
    add_warning, add_plots]

/-- Witness for C6 on the concrete no-visualization manifest. -/
theorem open_manifest_without_visualization_witness :
    ("/nv/problem.yaml" ≠ "") ∧
    envNoViz.yamls "/nv/problem.yaml" =
      some [[(MEASUREMENT_FILES, ["m.tsv"]), (CONDITION_FILES, ["c.tsv"])]] ∧
    (∃ w', show_yaml_dialog envNoViz "/nv/problem.yaml" initialWindow = .ok w' ∧
      w'.visualization_df = none ∧
      w'.warn_msg = "The YAML file contains no visualization file (default plotted)" ∧
      w'.simulation_df = none ∧
      w'.plotCount = initialWindow.plotCount + 1) :=
  ⟨by decide, rfl,
    open_manifest_without_visualization envNoViz "/nv/problem.yaml" initialWindow
      [(MEASUREMENT_FILES, ["m.tsv"]), (CONDITION_FILES, ["c.tsv"])] [] "m.tsv" "c.tsv"
      [] [] dfMeas dfCond
      [(MEASUREMENT_FILES, [("m.tsv", some dfMeas)]),
       (CONDITION_FILES, [("c.tsv", some dfCond)])]
      ["/nv/m.tsv", "/nv/c.tsv"]
      (by decide) rfl rfl rfl rfl rfl rfl rfl⟩

/-! ### C3: exception propagation out of the dialog handlers -/

/-- C3 counterexample: opening a syntactically valid manifest that merely
lacks the condition category makes `show_yaml_dialog` raise a `KeyError`
that propagates out of the handler — it is not caught and translated into
a surfaced message — and the ActiveSelection is NOT left unchanged: the
measurement slot has already been overwritten (and the warning area
cleared) by the time the exception escapes. -/
theorem open_manifest_uncaught_exception :
    show_yaml_dialog envMeasOnly "/d/p.yaml" initialWindow =
      .error (.keyError CONDITION_FILES,
        { initialWindow with yaml_dict := some ydMeasOnly, exp_data := some dfMeas }) ∧
    initialWindow.exp_data = none ∧
    errOf (show_yaml_dialog envMeasOnly "/d/p.yaml" initialWindow) ≠ none :=
  ⟨rfl, rfl, by decide⟩

/-- C3 (amended): the dialog handlers contain no exception boundary.  Only
two failure cases are handled in-handler (missing visualization category →
warning and default plot; attachSimulation without an active measurement →
warning); any other failure escapes.  In particular, whenever the manifest
parses and the measurement file loads but the condition category is
missing, `show_yaml_dialog` raises `KeyError` out of the handler, with the
measurement slot already mutated to the freshly loaded table and the
warning area already cleared. -/
theorem open_manifest_error_escapes_with_partial_state (env : Env) (fn : String)
    (w : Window) (yd : YamlDict) (ydrest : List YamlDict) (mf : String)
    (mrest : List String) (mdf : DataFrame)
    (hfn : fn ≠ "")
    (hy : env.yamls fn = some (yd :: ydrest))
    (hm : lookupYaml yd MEASUREMENT_FILES = some (mf :: mrest))
    (hmf : env.files (dirname fn ++ "/" ++ mf) = some mdf)
    (hcnone : lookupYaml yd CONDITION_FILES = none) :
    show_yaml_dialog env fn w =
      .error (.keyError CONDITION_FILES,
        { w with warn_msg := "", yaml_dict := some yd, exp_data := some mdf }) := by
  simp only [show_yaml_dialog, if_neg hfn, hy, hm, hmf, hcnone]

/-- Witness for C3's amended theorem at the concrete manifest. -/
theorem open_manifest_error_escapes_with_partial_state_witness :
    ("/d/p.yaml" ≠ "") ∧
    envMeasOnly.yamls "/d/p.yaml" = some [ydMeasOnly] ∧
    lookupYaml ydMeasOnly CONDITION_FILES = none ∧
    show_yaml_dialog envMeasOnly "/d/p.yaml" initialWindow =
      .error (.keyError CONDITION_FILES,
        { initialWindow with warn_msg := "", yaml_dict := some ydMeasOnly, exp_data := some dfMeas }) :=
  ⟨by decide, rfl, by decide,
    open_manifest_error_escapes_with_partial_state envMeasOnly "/d/p.yaml"
      initialWindow ydMeasOnly [] "m.tsv" [] dfMeas (by decide) rfl rfl rfl rfl⟩

/-! ### C4: eager versus lazy loading at tree construction -/

/-- Trace of one branch construction: loading happens for exactly the files
of a loaded category. -/
lemma buildLeaves_trace (env : Env) (folder key : String) :
    ∀ fs ls tr, buildLeaves env folder key fs = .ok (ls, tr) →
      tr = if isLoadCategory key then fs.map (fun f => folder ++ "/" ++ f) else [] := by
  intro fs
  induction fs with
  | nil =>
    intro ls tr h
    injection h with h
    injection h with h₁ h₂
    subst h₂
    by_cases hk : isLoadCategory key <;> simp [hk]
  | cons f fs ih =>
    intro ls tr h
    by_cases hk : isLoadCategory key
    · simp only [buildLeaves, leafLoad, if_pos hk] at h
      split at h
      · exact Except.noConfusion h
      · rename_i df tr₁ hleaf
        split at h
        · exact Except.noConfusion h
        · rename_i ls₂ tr₂ hrest
          injection h with h
          injection h with h₁ h₂
          subst h₂
          rw [ih _ _ hrest, if_pos hk, if_pos hk]
          split at hleaf
          · exact Except.noConfusion hleaf
          · injection hleaf with hleaf
            injection hleaf with ha hb
            subst hb
            simp
    · simp only [buildLeaves, leafLoad, if_neg hk] at h
      split at h
      · exact Except.noConfusion h
      · rename_i heqrest
        injection h with h
        injection h with h₁ h₂
        subst h₂
        rw [ih _ _ heqrest, if_neg hk, if_neg hk]
        simp


/-- Trace of the full branch loop: concatenation of the per-branch traces. -/
lemma buildBranches_trace (env : Env) (folder : String) :
    ∀ yd t tr, buildBranches env folder yd = .ok (t, tr) →
      tr = eagerLoadPaths folder yd := by
  intro yd
  induction yd with
  | nil =>
    intro t tr h
    injection h with h
    injection h with h₁ h₂
    subst h₂
    rfl
  | cons kv rest ih =>
    obtain ⟨key, files⟩ := kv
    intro t tr h
    simp only [buildBranches] at h
    split at h
    · exact Except.noConfusion h
    · rename_i ls tr₁ hleaves
      split at h
      · exact Except.noConfusion h
      · rename_i bs tr₂ hbranches
        injection h with h
        injection h with h₁ h₂
        subst h₂
        rw [buildLeaves_trace env folder key files ls tr₁ hleaves, ih _ _ hbranches]
        rfl

/-- C4 counterexample: building the registry tree for a one-file manifest
performs a file load during construction — its load trace is the non-empty
`["/d/m.tsv"]` and the loaded table is already stored on the leaf —
refuting "building the registry tree performs no file loads by itself". -/
theorem tree_construction_loads_files :
    table_tree_view envMeasOnly ydMeasOnly none "/d" =
      .ok ([(MEASUREMENT_FILES, [("m.tsv", some dfMeas)])], ["/d/m.tsv"]) ∧
    (["/d/m.tsv"] ≠ ([] : List String)) :=
  ⟨rfl, by decide⟩

/-- C4 (amended): tree construction is eager, not lazy: whenever
`table_tree_view` succeeds, its load trace is exactly one load per filename
listed under the measurement, visualization, condition, or observable
categories, all performed at construction time; the loaded tables are
stored on the leaves, and the subsequent single- and double-activate
handlers only read the stored node data. -/
theorem tree_construction_trace_is_all_category_files (env : Env) (yd : YamlDict)
    (sim : Option DataFrame) (folder : String) (t : TreeModel) (tr : List String)
    (h : table_tree_view env yd sim folder = .ok (t, tr)) :
    tr = eagerLoadPaths folder yd := by
  unfold table_tree_view at h
  split at h
  · exact Except.noConfusion h
  · rename_i bs tr' hb
    cases sim with
    | some s =>
      injection h with h
      injection h with h₁ h₂
      subst h₂
      exact buildBranches_trace env folder yd bs tr' hb
    | none =>
      injection h with h
      injection h with h₁ h₂
      subst h₂
      exact buildBranches_trace env folder yd bs tr' hb

/-- Witness for C4's amended theorem at the concrete one-file manifest. -/
theorem tree_construction_trace_witness :
    table_tree_view envMeasOnly ydMeasOnly none "/d" =
      .ok ([(MEASUREMENT_FILES, [("m.tsv", some dfMeas)])], ["/d/m.tsv"]) ∧
    ["/d/m.tsv"] = eagerLoadPaths "/d" ydMeasOnly :=
  ⟨rfl, tree_construction_trace_is_all_category_files envMeasOnly ydMeasOnly none "/d"
    [(MEASUREMENT_FILES, [("m.tsv", some dfMeas)])] ["/d/m.tsv"] rfl⟩

/-! ### C5: path resolution after attachSimulation -/

/-- C5: after `attachSimulation` with a simulation file in `/results`, the
tree rebuild at line 285 resolves the manifest's filenames against
`os.path.dirname` of the simulation file instead of the manifest's
directory — although `table_tree_view`'s own docstring says `folder_path`
is "the path to the folder the yaml file is in".  Opening the manifest
succeeds, but attaching the simulation then raises a load failure for
`/results/m.tsv`, while the same filename resolves fine against the
manifest directory `/data`. -/
theorem attach_simulation_resolves_against_wrong_directory :
    isOkE (show_yaml_dialog envSplitDirs "/data/problem.yaml" initialWindow) = true ∧
    wAfterOpen.exp_data = some dfMeas ∧
    errOf (show_simulation_dialog envSplitDirs "/results/sim.tsv" wAfterOpen) =
      some (.fileError "/results/m.tsv") ∧
    envSplitDirs.files "/data/m.tsv" = some dfMeas ∧
    isOkT (table_tree_view envSplitDirs ydTwo
      (some (reconcileSimulation dfABrep dfMeas)) "/data") = true :=
  ⟨rfl, rfl, rfl, rfl, rfl⟩

/-! ### C7, C8, C9, C10: the click handlers -/

/-- C7: calling `activate` twice with the same tree item is idempotent on
state and not on signals: the second `exchange_dataframe_on_click` produces
exactly the state left by the first call except that the plot-refresh
counter advances once more, so two calls emit two refresh signals in total
— the second call is never short-circuited into a cached no-op. -/
theorem activate_twice_idempotent_two_signals (node : ClickedNode) (w : Window) :
    exchange_dataframe_on_click node (exchange_dataframe_on_click node w) =
      { exchange_dataframe_on_click node w with
        plotCount := (exchange_dataframe_on_click node w).plotCount + 1 } ∧
    (exchange_dataframe_on_click node (exchange_dataframe_on_click node w)).plotCount =
      w.plotCount + 2 := by
  refine ⟨?_, ?_⟩ <;>
    · simp only [exchange_dataframe_on_click, add_plots]
      split_ifs <;> rfl

/-- C8: a double-activate (`display_table_on_doubleclick`) leaves every
ActiveSelection slot (measurement, condition, visualization, simulation)
and the warning area unchanged and emits no plot-refresh signal; the
clicked table is only handed to the read-only popup display. -/
theorem inspect_changes_no_selection (node : ClickedNode) (w : Window) :
    (display_table_on_doubleclick node w).exp_data = w.exp_data ∧
    (display_table_on_doubleclick node w).condition_df = w.condition_df ∧
    (display_table_on_doubleclick node w).visualization_df = w.visualization_df ∧
    (display_table_on_doubleclick node w).simulation_df = w.simulation_df ∧
    (display_table_on_doubleclick node w).yaml_dict = w.yaml_dict ∧
    (display_table_on_doubleclick node w).warn_msg = w.warn_msg ∧
    (display_table_on_doubleclick node w).plotCount = w.plotCount ∧
    (∀ df, node.data = some df →
      (display_table_on_doubleclick node w).table_window = some df) := by
  cases hd : node.data <;>
    simp [display_table_on_doubleclick, pop_up_table_view, hd]

/-- Witness for C8 at a concrete clicked node carrying `dfMeas`. -/
theorem inspect_changes_no_selection_witness :
    (display_table_on_doubleclick
        ⟨some "measurement_files", "m.tsv", some dfMeas⟩ initialWindow).exp_data =
      initialWindow.exp_data ∧
    (display_table_on_doubleclick
        ⟨some "measurement_files", "m.tsv", some dfMeas⟩ initialWindow).table_window =
      some dfMeas := by
  obtain ⟨h₁, -, -, -, -, -, -, h₈⟩ :=
    inspect_changes_no_selection
      ⟨some "measurement_files", "m.tsv", some dfMeas⟩ initialWindow
  exact ⟨h₁, h₈ dfMeas rfl⟩

/-- C9 counterexample: two successive double-activates on distinct leaves.
`pop_up_table_view` assigns the new view to the single
`window.table_window` attribute, so after the second double-activate the
window's view slot holds only the second table — the reference to the
previously opened view is overwritten, refuting "all previously opened
views remain open and displayable". -/
theorem popup_view_overwritten :
    (display_table_on_doubleclick ⟨some "measurement_files", "m1", some dfMeas⟩
        initialWindow).table_window = some dfMeas ∧
    (display_table_on_doubleclick ⟨some "measurement_files", "m2", some dfOther⟩
        (display_table_on_doubleclick ⟨some "measurement_files", "m1", some dfMeas⟩
          initialWindow)).table_window = some dfOther ∧
    ¬ (display_table_on_doubleclick ⟨some "measurement_files", "m2", some dfOther⟩
        (display_table_on_doubleclick ⟨some "measurement_files", "m1", some dfMeas⟩
          initialWindow)).table_window = some dfMeas := by
  refine ⟨rfl, rfl, ?_⟩
  decide

/-- C9 (amended): each double-activate on a leaf carrying a table opens a
read-only view of exactly that table, stored in the window's single
`table_window` attribute — thereby overwriting the reference to any
previously opened view, so only the most recent view is retained by the
application state. -/
theorem popup_view_single_slot (node : ClickedNode) (w : Window) (df : DataFrame)
    (h : node.data = some df) :
    display_table_on_doubleclick node w = { w with table_window := some df } := by
  simp [display_table_on_doubleclick, pop_up_table_view, h]

/-- Witness for C9's amended theorem at a concrete node and window. -/
theorem popup_view_single_slot_witness :
    (⟨some "measurement_files", "m1", some dfMeas⟩ : ClickedNode).data = some dfMeas ∧
    display_table_on_doubleclick ⟨some "measurement_files", "m1", some dfMeas⟩
        initialWindow = { initialWindow with table_window := some dfMeas } :=
  ⟨rfl, popup_view_single_slot ⟨some "measurement_files", "m1", some dfMeas⟩
    initialWindow dfMeas rfl⟩

/-- C10: a single click on a node whose parent is none of the measurement,
visualization, or condition category branches (a top-level category node,
an observable-file leaf, or the simulation leaf) leaves every
ActiveSelection slot unchanged, yet the handler still emits exactly one
plot-refresh signal unconditionally. -/
theorem click_outside_plot_categories_only_replots (node : ClickedNode) (w : Window)
    (h₁ : node.parentName ≠ some MEASUREMENT_FILES)
    (h₂ : node.parentName ≠ some VISUALIZATION_FILES)
    (h₃ : node.parentName ≠ some CONDITION_FILES) :
    exchange_dataframe_on_click node w = { w with plotCount := w.plotCount + 1 } := by
  simp [exchange_dataframe_on_click, add_plots, h₁, h₂, h₃]

/-- Witness for C10: clicking an observable-file leaf. -/
theorem click_outside_plot_categories_only_replots_witness :
    (some "observable_files" ≠ some MEASUREMENT_FILES) ∧
    (some "observable_files" ≠ some VISUALIZATION_FILES) ∧
    (some "observable_files" ≠ some CONDITION_FILES) ∧
    exchange_dataframe_on_click ⟨some "observable_files", "o.tsv", some dfMeas⟩
        initialWindow = { initialWindow with plotCount := initialWindow.plotCount + 1 } :=
  ⟨by decide, by decide, by decide,
    click_outside_plot_categories_only_replots
      ⟨some "observable_files", "o.tsv", some dfMeas⟩ initialWindow
      (by decide) (by decide) (by decide)⟩

end Petabvis
